import Mathlib

set_option maxRecDepth 8192

/-!
Shallow embedding of the iCalendar (RFC 5545) serializer and lifecycle
helpers of `src/lib/calendar.ts` (the primary variant, lines 1-340), and of
the second `formatAttendee` variant (lines 415-444) cited alongside it.

JavaScript strings are modelled as `List Char`.  JavaScript `.length`,
`substring`, `replace` on single-character patterns, `split(x)[0]`, and
template-string concatenation map to `List.length`, `take`/`drop`,
`flatMap`, `takeWhile` and `++` respectively; this agrees with the
JavaScript semantics for strings made of basic-plane characters (where one
UTF-16 code unit is one character), which covers every input used in the
theorems below.  Optional (possibly-`undefined`) values are `Option`;
JavaScript truthiness of an optional string (`undefined` and `""` are
falsy) is `jsTruthy`, and `a || b` on optional strings is `jsOrStr`.
-/

/-- JavaScript strings, as lists of characters. -/
abbrev Str := List Char

/-- Truthiness of an optional string: `undefined` and the empty string are falsy. -/
def jsTruthy : Option Str → Bool
  | none => false
  | some s => !s.isEmpty

/-- JavaScript `a || b` where `a` is an optional string and `b` the fallback. -/
def jsOrStr (a : Option Str) (b : Str) : Str :=
  match a with
  | none => b
  | some s => if s.isEmpty then b else s

/-- JavaScript `a || 0` where `a` is an optional number: `undefined` and `0` both give `0`. -/
def jsOrNat (a : Option Nat) : Nat := a.getD 0

/-- Value of a template-string interpolation `${x}` for an optional string:
JavaScript renders `undefined` as the text `undefined`. -/
def strVal (a : Option Str) : Str := a.getD ("undefined").data

/-- The decimal digit characters (arguments are always below ten). -/
def digitChar (n : Nat) : Char :=
  if n = 0 then '0' else if n = 1 then '1' else if n = 2 then '2' else if n = 3 then '3'
  else if n = 4 then '4' else if n = 5 then '5' else if n = 6 then '6' else if n = 7 then '7'
  else if n = 8 then '8' else if n = 9 then '9' else '?'

/-- Decimal digits of a natural number, fuel-based so that it reduces
by evaluation; `natDigitsAux (n+1) n` has ample fuel since `n/10 < n`. -/
def natDigitsAux : Nat → Nat → Str
  | 0, _ => []
  | fuel+1, n => if n < 10 then [digitChar n] else natDigitsAux fuel (n / 10) ++ [digitChar (n % 10)]

/-- Decimal rendering of a number, as produced by a template string `${n}`. -/
def natDigits (n : Nat) : Str := natDigitsAux (n + 1) n

/-- The join `parts.join(';')` from `formatAttendee`. -/
def joinSemi : List Str → Str
  | [] => []
  | [x] => x
  | x :: y :: ys => x ++ ';' :: joinSemi (y :: ys)

/-- The join `lines.join` with CRLF from `generateICalContent` and `foldLine`. -/
def joinCRLF : List Str → Str
  | [] => []
  | [x] => x
  | x :: y :: ys => x ++ '\r' :: '\n' :: joinCRLF (y :: ys)

/-- JavaScript `s.replace` with a global single-character pattern `x` and replacement `r`. -/
def escRepl (x : Char) (r : Str) (s : Str) : Str :=
  s.flatMap fun c => if c = x then r else [c]

/-- Function `escapeICalText` (calendar.ts:63-70): backslash-escape `\`, `;`, `,`,
turn literal newlines into the two characters `\n`, and strip `\r`. -/
def escapeICalText (s : Str) : Str :=
  escRepl '\r' []
    (escRepl '\n' ['\\', 'n']
      (escRepl ',' ['\\', ',']
        (escRepl ';' ['\\', ';']
          (escRepl '\\' ['\\', '\\'] s))))

/-- A string free of carriage returns and line feeds. -/
def crlfFree (s : Str) : Bool := s.all fun c => c ≠ '\n' && c ≠ '\r'

/-- Helper for `noBareLF`: scan with the previous character at hand. -/
def noBareLFAux : Char → Str → Bool
  | _, [] => true
  | prev, c :: rest => (c ≠ '\n' || prev = '\r') && noBareLFAux c rest

/-- No line feed occurs that is not immediately preceded by a carriage
return (a leading line feed counts as bare). -/
def noBareLF : Str → Bool
  | [] => true
  | c :: rest => (c ≠ '\n') && noBareLFAux c rest

/-- Number of octets of the UTF-8 encoding of a string. -/
def utf8Len (s : Str) : Nat := (s.map Char.utf8Size).sum

/-- The `.replace(/[-:]/g, '').split('.')[0] + 'Z'` pipeline applied to an
ISO 8601 timestamp string throughout `generateICalContent`. -/
def basicOf (s : Str) : Str :=
  ((s.filter fun c => !(c = '-' || c = ':')).takeWhile fun c => c ≠ '.') ++ ('Z') :: []

/-- Function `generateEventUID` (calendar.ts:32-36): `Date.now()` and the random
base-36 suffix are passed in as the strings they interpolate to; the domain
is `process.env.FROM_EMAIL || 'DEDE_SYSTEM@dit.daikin.co.jp'`. -/
def generateEventUID (fromEmailEnv : Option Str) (timestamp rand : Str) : Str :=
  timestamp ++ '-' :: rand ++ '@' :: jsOrStr fromEmailEnv ("DEDE_SYSTEM@dit.daikin.co.jp").data

/-- The `method` enumeration of `CalendarEvent`. -/
inductive Method
  | REQUEST
  | CANCEL
deriving DecidableEq

/-- Rendering of a `method` value. -/
def methodStr : Method → Str
  | .REQUEST => ("REQUEST").data
  | .CANCEL => ("CANCEL").data

/-- The `status` enumeration of `CalendarEvent`. -/
inductive EvStatus
  | CONFIRMED
  | TENTATIVE
  | CANCELLED
deriving DecidableEq

/-- Rendering of a `status` value. -/
def evStatusStr : EvStatus → Str
  | .CONFIRMED => ("CONFIRMED").data
  | .TENTATIVE => ("TENTATIVE").data
  | .CANCELLED => ("CANCELLED").data

/-- Attendee roles. -/
inductive ARole
  | REQ
  | OPT
  | NON
deriving DecidableEq

/-- Rendering of an attendee role. -/
def aRoleStr : ARole → Str
  | .REQ => ("REQ-PARTICIPANT").data
  | .OPT => ("OPT-PARTICIPANT").data
  | .NON => ("NON-PARTICIPANT").data

/-- Attendee participation statuses. -/
inductive APart
  | NEEDSACTION
  | ACCEPTED
  | DECLINED
  | TENTATIVE
deriving DecidableEq

/-- Rendering of an attendee participation status. -/
def aPartStr : APart → Str
  | .NEEDSACTION => ("NEEDS-ACTION").data
  | .ACCEPTED => ("ACCEPTED").data
  | .DECLINED => ("DECLINED").data
  | .TENTATIVE => ("TENTATIVE").data

/-- An attendee record of `CalendarEvent`. -/
structure Attendee where
  name : Option Str
  email : Option Str
  role : Option ARole
  status : Option APart
deriving DecidableEq

/-- The organizer record of `CalendarEvent`. -/
structure Organizer where
  name : Option Str
  email : Option Str
deriving DecidableEq

/-- The `CalendarEvent` interface (calendar.ts:6-27); every field is
optional exactly as in the source. -/
structure CalendarEvent where
  uid : Option Str
  summary : Option Str
  description : Option Str
  location : Option Str
  start : Option Str
  «end» : Option Str
  timezone : Option Str
  organizer : Option Organizer
  attendees : Option (List Attendee)
  sequence : Option Nat
  method : Option Method
  status : Option EvStatus
deriving DecidableEq

/-- The ambient `process.env` values the serializer reads. -/
structure Env where
  smtpFromEmail : Option Str
  smtpFromName : Option Str
  fromEmail : Option Str

/-- The word-character class of the JavaScript regex `\w`. -/
def isWordChar (c : Char) : Bool := c.isAlphanum || c = '_'

/-- JavaScript `s.replace` with the word-boundary pattern and an uppercasing replacement: uppercase every word
character that is not preceded by a word character.  The flag records
whether the previous character was a word character. -/
def capWords : Bool → Str → Str
  | _, [] => []
  | prevW, c :: rest =>
    (if isWordChar c && !prevW then c.toUpper else c) :: capWords (isWordChar c) rest

/-- The attendee display name derived from an email in `formatAttendee`:
`email.split('@')[0].replace(/[._]/g, ' ').replace(/\b\w/g, upper)`. -/
def deriveName (email : Str) : Str :=
  capWords false ((email.takeWhile fun c => c ≠ '@').map fun c => if c = '.' || c = '_' then ' ' else c)

/-- The `CN=` part of an attendee line (same in both variants). -/
def cnPart (a : Attendee) : Str :=
  if jsTruthy a.name then ("CN=").data ++ escapeICalText (strVal a.name)
  else ("CN=").data ++ escapeICalText (deriveName (strVal a.email))

/-- The optional `ROLE=` part of an attendee line. -/
def rolePart (a : Attendee) : List Str :=
  match a.role with
  | some r => [("ROLE=").data ++ aRoleStr r]
  | none => []

/-- The optional `PARTSTAT=` part of an attendee line. -/
def statusPart (a : Attendee) : List Str :=
  match a.status with
  | some p => [("PARTSTAT=").data ++ aPartStr p]
  | none => []

/-- The trailing `mailto:` part of an attendee line. -/
def mailtoPart (a : Attendee) : Str := ("mailto:").data ++ strVal a.email

/-- Function `formatAttendee` (calendar.ts:76-105, the Outlook-enhanced variant):
CN, optional ROLE, `RSVP=TRUE` for every role, optional PARTSTAT, mailto,
joined with `;` after the `ATTENDEE;` tag. -/
def formatAttendee (a : Attendee) : Str :=
  ("ATTENDEE;").data ++
    joinSemi ([cnPart a] ++ rolePart a ++ [("RSVP=TRUE").data] ++ statusPart a ++ [mailtoPart a])

/-- Function `formatAttendee` (calendar.ts:415-444, the second variant): identical
except that `RSVP` is `FALSE` for `OPT-PARTICIPANT` and `TRUE` otherwise. -/
def formatAttendeeV2 (a : Attendee) : Str :=
  ("ATTENDEE;").data ++
    joinSemi ([cnPart a] ++ rolePart a ++
      [("RSVP=").data ++ (if a.role = some .OPT then ("FALSE").data else ("TRUE").data)] ++
      statusPart a ++ [mailtoPart a])

/-- The chunking loop of `foldLine` (calendar.ts:110-122): while more than
75 units remain, push the first 75 and continue with a space prepended to
the rest; finally push what remains.  Fuel-based so it evaluates; the fuel
passed by `foldChunks` is ample because each iteration removes 74 units. -/
def foldChunksAux : Nat → Str → List Str
  | _, [] => []
  | 0, rem => [rem]
  | fuel+1, rem =>
    if 75 < rem.length then rem.take 75 :: foldChunksAux fuel (' ' :: rem.drop 75)
    else [rem]

/-- The list of physical lines `foldLine` produces for an over-long input. -/
def foldChunks (line : Str) : List Str := foldChunksAux line.length line

/-- Function `foldLine` (calendar.ts:110-122): lines of length at most 75 pass
through; longer ones are chunked and joined with CRLF. -/
def foldLine (line : Str) : Str :=
  if line.length ≤ 75 then line else joinCRLF (foldChunks line)

/-- The `ORGANIZER` fallback built from `process.env.SMTP_FROM_NAME` /
`SMTP_FROM_EMAIL` (calendar.ts:188-191). -/
def orgFallback (env : Env) : Str :=
  ("ORGANIZER;CN=").data ++ (escapeICalText (jsOrStr env.smtpFromName ("DEDE_SYSTEM").data) ++
    ((":mailto:").data ++ jsOrStr env.smtpFromEmail ("DEDE_SYSTEM@dit.daikin.co.jp").data))

/-- The logical `ORGANIZER` line (calendar.ts:184-192): the event organizer
when it has a truthy email, otherwise the environment fallback. -/
def organizerLine (env : Env) (e : CalendarEvent) : Str :=
  match e.organizer with
  | some o =>
    if jsTruthy o.email then
      ("ORGANIZER;CN=").data ++ (escapeICalText (jsOrStr o.name ("DEDE_SYSTEM").data) ++
        ((":mailto:").data ++ strVal o.email))
    else orgFallback env
  | none => orgFallback env

/-- The synthesized `ATTENDEE` fallback line (calendar.ts:203-205), built
from the environment sender identity. -/
def attFallback (env : Env) : Str :=
  ("ATTENDEE;CN=").data ++ (escapeICalText (jsOrStr env.smtpFromName ("DEDE_SYSTEM").data) ++
    ((";ROLE=REQ-PARTICIPANT;RSVP=TRUE:mailto:").data ++
      jsOrStr env.smtpFromEmail ("DEDE_SYSTEM@dit.daikin.co.jp").data))

/-- The `DTSTART`/`DTEND` block (calendar.ts:154-160), emitted only when
both `start` and `end` are truthy; `toISO` is `s => new Date(s).toISOString()`. -/
def dtLines (toISO : Str → Str) (e : CalendarEvent) : List Str :=
  if jsTruthy e.start && jsTruthy e.«end» then
    [("DTSTART:").data ++ basicOf (toISO (strVal e.start)),
     ("DTEND:").data ++ basicOf (toISO (strVal e.«end»))]
  else []

/-- The logical `SUMMARY` line (calendar.ts:162-167): default `Meeting`,
with ` (Cancelled)` appended when the method is CANCEL. -/
def summaryLine (e : CalendarEvent) : Str :=
  ("SUMMARY:").data ++ escapeICalText
    (if e.method = some .CANCEL then jsOrStr e.summary ("Meeting").data ++ (" (Cancelled)").data
     else jsOrStr e.summary ("Meeting").data)

/-- The optional `DESCRIPTION` block (calendar.ts:170-175). -/
def descLines (e : CalendarEvent) : List Str :=
  if jsTruthy e.description then
    [foldLine (("DESCRIPTION:").data ++ escapeICalText
      (if e.method = some .CANCEL then
        ("This meeting has been cancelled.\n\n").data ++ strVal e.description
       else strVal e.description))]
  else []

/-- The optional `LOCATION` block (calendar.ts:178-180). -/
def locLines (e : CalendarEvent) : List Str :=
  if jsTruthy e.location then
    [foldLine (("LOCATION:").data ++ escapeICalText (strVal e.location))]
  else []

/-- The `ATTENDEE` block (calendar.ts:194-206): one line per attendee with
a truthy email when the list is present and non-empty, otherwise the
single environment-derived fallback line. -/
def attLines (env : Env) (e : CalendarEvent) : List Str :=
  match e.attendees with
  | some l =>
    if l.length > 0 then (l.filter fun a => jsTruthy a.email).map fun a => foldLine (formatAttendee a)
    else [foldLine (attFallback env)]
  | none => [foldLine (attFallback env)]

/-- The array `lines` built by `generateICalContent` (calendar.ts:128-214),
in push order.  `nowISO` is the value of `now.toISOString()` at render
time, `freshUid` the value `generateEventUID()` would return (used only
when the event's `uid` is falsy), and `toISO` the `Date` round-trip
applied to `start`/`end`. -/
def icalLines (env : Env) (toISO : Str → Str) (nowISO freshUid : Str) (e : CalendarEvent) : List Str :=
  [("BEGIN:VCALENDAR").data,
   ("VERSION:2.0").data,
   ("PRODID:-//DEDE_SYSTEM//Email Calendar//EN").data,
   ("CALSCALE:GREGORIAN").data,
   ("METHOD:").data ++ methodStr (e.method.getD .REQUEST),
   ("BEGIN:VEVENT").data,
   ("UID:").data ++ jsOrStr e.uid freshUid,
   ("SEQUENCE:").data ++ natDigits (e.sequence.getD 0),
   ("DTSTAMP:").data ++ basicOf nowISO] ++
  dtLines toISO e ++
  [foldLine (summaryLine e)] ++
  descLines e ++
  locLines e ++
  [foldLine (organizerLine env e)] ++
  attLines env e ++
  [("STATUS:").data ++ evStatusStr (e.status.getD .CONFIRMED),
   ("END:VEVENT").data,
   ("END:VCALENDAR").data]

/-- Function `generateICalContent` (calendar.ts:128-218): the lines joined with CRLF. -/
def generateICalContent (env : Env) (toISO : Str → Str) (nowISO freshUid : Str) (e : CalendarEvent) : Str :=
  joinCRLF (icalLines env toISO nowISO freshUid e)

/-- Function `createCancelledCalendarEvent` (calendar.ts:312-324): copy the event,
force method CANCEL and status CANCELLED, bump the sequence, and keep the
organizer (falling back to the configured default when absent). -/
def createCancelledCalendarEvent (env : Env) (e : CalendarEvent) : CalendarEvent :=
  { e with
    method := some .CANCEL
    status := some .CANCELLED
    sequence := some (jsOrNat e.sequence + 1)
    organizer := some (e.organizer.getD
      ⟨some ("DEDE_SYSTEM").data, some (jsOrStr env.smtpFromEmail ("DEDE_SYSTEM@dit.daikin.co.jp").data)⟩) }

/-- The parameter record of `createCalendarEvent` (calendar.ts:240-257).
`start`/`end` are modelled in their string form (a `Date` argument is
converted with `toISOString` before being stored). -/
structure CreateParams where
  uid : Option Str
  summary : Option Str
  description : Option Str
  location : Option Str
  start : Option Str
  «end» : Option Str
  timezone : Option Str
  organizerName : Option Str
  organizerEmail : Option Str
  attendeeEmails : Option (List Str)
  attendeeNames : Option (List Str)
  ccAttendeeEmails : Option (List Str)
  ccAttendeeNames : Option (List Str)
  method : Option Method
  status : Option EvStatus
  sequence : Option Nat

/-- Optional indexing, JavaScript `names?.[i]`, into an optional list. -/
def optIdx (names : Option (List Str)) (i : Nat) : Option Str :=
  names.bind fun l => l.get? i

/-- JavaScript `emails.map` with the element index passed to the callback. -/
def mapWithIdx (f : Nat → Str → Attendee) : Nat → List Str → List Attendee
  | _, [] => []
  | i, e :: es => f i e :: mapWithIdx f (i + 1) es

/-- The `toAttendees` mapping of `createCalendarEvent` (calendar.ts:258-263). -/
def toAttendeesOf (p : CreateParams) : List Attendee :=
  mapWithIdx (fun i email => ⟨optIdx p.attendeeNames i, some email, some .REQ, some .NEEDSACTION⟩)
    0 (p.attendeeEmails.getD [])

/-- The `ccAttendees` mapping of `createCalendarEvent` (calendar.ts:265-270). -/
def ccAttendeesOf (p : CreateParams) : List Attendee :=
  mapWithIdx (fun i email => ⟨optIdx p.ccAttendeeNames i, some email, some .OPT, some .NEEDSACTION⟩)
    0 (p.ccAttendeeEmails.getD [])

/-- Function `createCalendarEvent` (calendar.ts:240-291).  Performs no validation:
it always returns an event.  `freshUid` is the value `generateEventUID()`
would return, used when the `uid` parameter is falsy. -/
def createCalendarEvent (p : CreateParams) (freshUid : Str) : CalendarEvent :=
  let attendees := toAttendeesOf p ++ ccAttendeesOf p
  { uid := some (jsOrStr p.uid freshUid)
    summary := p.summary
    description := p.description
    location := p.location
    start := p.start
    «end» := p.«end»
    timezone := p.timezone
    organizer :=
      if jsTruthy p.organizerName && jsTruthy p.organizerEmail then
        some ⟨p.organizerName, p.organizerEmail⟩
      else none
    attendees := if attendees.length > 0 then some attendees else none
    sequence := some (jsOrNat p.sequence)
    method := some (p.method.getD .REQUEST)
    status := some (p.status.getD .CONFIRMED) }

/-- A realistic attendee whose `mailto:` token starts at offset 71 of its
formatted line, so the fixed break at offset 75 falls after `mail`. -/
def attC3 : Attendee :=
  ⟨some ("Alice").data, some ("a@b.c").data, some .REQ, some .NEEDSACTION⟩

/-- A parameter set that is invalid on every count the claim lists: an
empty attendee email, an `@`-less attendee email, `end` before `start`,
and an organizer with a name but no email. -/
def badParamsC5 : CreateParams :=
  { uid := none, summary := some ("Kickoff").data, description := none, location := none,
    start := some ("2024-01-02T00:00:00Z").data, «end» := some ("2024-01-01T00:00:00Z").data,
    timezone := none, organizerName := some ("X").data, organizerEmail := none,
    attendeeEmails := some [[], ("nobody").data], attendeeNames := none,
    ccAttendeeEmails := none, ccAttendeeNames := none,
    method := none, status := none, sequence := none }

/-- An optional (OPT-PARTICIPANT) attendee. -/
def attC7 : Attendee :=
  ⟨some ("Bob").data, some ("b@x.com").data, some .OPT, some .NEEDSACTION⟩

/-- A rendered line that carries an `ATTENDEE` property. -/
def isAttLine (l : Str) : Bool := ("ATTENDEE").data.isPrefixOf l

/-- The default environment: none of the three variables is set. -/
def envDef : Env := ⟨none, none, none⟩

/-- An event with an organizer but no attendees. -/
def eC8 : CalendarEvent :=
  { uid := some ("u8@x").data, summary := some ("Sync").data, description := none,
    location := none, start := none, «end» := none, timezone := none,
    organizer := some ⟨some ("John Smith").data, some ("john.smith@company.com").data⟩,
    attendees := none, sequence := some 0, method := some .REQUEST,
    status := some .CONFIRMED }

/-- An event whose raw `uid` smuggles a line feed into the output. -/
def eC6 : CalendarEvent :=
  { uid := some ("a\nb").data, summary := none, description := none, location := none,
    start := none, «end» := none, timezone := none, organizer := none, attendees := none,
    sequence := some 0, method := some .REQUEST, status := some .CONFIRMED }

/-! ### General lemmas about the joined output -/

/-- Every line pushed into the array occurs verbatim inside the CRLF join. -/
theorem infix_joinCRLF_of_mem {l : Str} : ∀ {L : List Str}, l ∈ L → l <:+: joinCRLF L := by
  intro L
  induction L with
  | nil => intro h; cases h
  | cons x xs ih =>
    intro h
    cases xs with
    | nil =>
      rcases List.mem_singleton.mp h with rfl
      exact List.infix_refl l
    | cons y ys =>
      rcases List.mem_cons.mp h with rfl | hmem
      · exact ⟨[], '\r' :: '\n' :: joinCRLF (y :: ys), by simp [joinCRLF]⟩
      · obtain ⟨s, t, hst⟩ := ih hmem
        exact ⟨x ++ '\r' :: '\n' :: s, t, by simp [joinCRLF, ← hst]⟩

/-! ### C1 — cancellation fidelity -/

/-- C1: `createCancelledCalendarEvent` preserves `uid`, `start`, `end` and
a present `organizer`, bumps a present `sequence` by exactly one, sets
method CANCEL and status CANCELLED, and the rendered text contains the
lines `METHOD:CANCEL` and `STATUS:CANCELLED`. -/
theorem C1_cancellation_fidelity (env : Env) (toISO : Str → Str) (nowISO freshUid : Str)
    (e : CalendarEvent) :
    (createCancelledCalendarEvent env e).uid = e.uid ∧
    (createCancelledCalendarEvent env e).start = e.start ∧
    (createCancelledCalendarEvent env e).«end» = e.«end» ∧
    (∀ o, e.organizer = some o → (createCancelledCalendarEvent env e).organizer = some o) ∧
    (∀ n, e.sequence = some n → (createCancelledCalendarEvent env e).sequence = some (n + 1)) ∧
    (createCancelledCalendarEvent env e).method = some Method.CANCEL ∧
    (createCancelledCalendarEvent env e).status = some EvStatus.CANCELLED ∧
    ("METHOD:CANCEL").data ∈ icalLines env toISO nowISO freshUid (createCancelledCalendarEvent env e) ∧
    ("STATUS:CANCELLED").data ∈ icalLines env toISO nowISO freshUid (createCancelledCalendarEvent env e) ∧
    ("METHOD:CANCEL").data <:+: generateICalContent env toISO nowISO freshUid (createCancelledCalendarEvent env e) ∧
    ("STATUS:CANCELLED").data <:+: generateICalContent env toISO nowISO freshUid (createCancelledCalendarEvent env e) := by
  have hmethod : ("METHOD:CANCEL").data ∈
      icalLines env toISO nowISO freshUid (createCancelledCalendarEvent env e) := by
    simp [icalLines, createCancelledCalendarEvent, methodStr]
  have hstatus : ("STATUS:CANCELLED").data ∈
      icalLines env toISO nowISO freshUid (createCancelledCalendarEvent env e) := by
    simp [icalLines, createCancelledCalendarEvent, evStatusStr]
  refine ⟨rfl, rfl, rfl, ?_, ?_, rfl, rfl, hmethod, hstatus,
    infix_joinCRLF_of_mem hmethod, infix_joinCRLF_of_mem hstatus⟩
  · intro o ho; simp [createCancelledCalendarEvent, ho]
  · intro n hn; simp [createCancelledCalendarEvent, hn, jsOrNat]

/-- Concrete instantiation of `C1_cancellation_fidelity`, discharging its
conditional clauses on an event with an organizer and sequence `0`. -/
theorem C1_cancellation_fidelity_witness :
    (CalendarEvent.mk (some ("u1@x").data) (some ("Standup").data) none none
        (some ("2024-12-15T14:00:00.000Z").data) (some ("2024-12-15T15:00:00.000Z").data) none
        (some ⟨some ("John Smith").data, some ("john.smith@company.com").data⟩)
        none (some 0) (some Method.REQUEST) (some EvStatus.CONFIRMED)).organizer =
      some ⟨some ("John Smith").data, some ("john.smith@company.com").data⟩ ∧
    (createCancelledCalendarEvent ⟨none, none, none⟩
      (CalendarEvent.mk (some ("u1@x").data) (some ("Standup").data) none none
        (some ("2024-12-15T14:00:00.000Z").data) (some ("2024-12-15T15:00:00.000Z").data) none
        (some ⟨some ("John Smith").data, some ("john.smith@company.com").data⟩)
        none (some 0) (some Method.REQUEST) (some EvStatus.CONFIRMED))).organizer =
      some ⟨some ("John Smith").data, some ("john.smith@company.com").data⟩ ∧
    (createCancelledCalendarEvent ⟨none, none, none⟩
      (CalendarEvent.mk (some ("u1@x").data) (some ("Standup").data) none none
        (some ("2024-12-15T14:00:00.000Z").data) (some ("2024-12-15T15:00:00.000Z").data) none
        (some ⟨some ("John Smith").data, some ("john.smith@company.com").data⟩)
        none (some 0) (some Method.REQUEST) (some EvStatus.CONFIRMED))).sequence = some 1 := by
  refine ⟨rfl, ?_, ?_⟩
  · exact (C1_cancellation_fidelity ⟨none, none, none⟩ id [] [] _).2.2.2.1 _ rfl
  · exact (C1_cancellation_fidelity ⟨none, none, none⟩ id [] [] _).2.2.2.2.1 0 rfl

/-! ### C2 — folding counts UTF-16 units, not UTF-8 octets -/

/-- C2: `foldLine` measures `line.length` (UTF-16 units), not encoded
octets.  On a line of 76 Euro signs (3 octets each) the first physical
chunk is 75 characters and 225 octets; a line of 26 Euro signs (78 octets)
is returned entirely unfolded even though it exceeds 75 octets, contrary
to the function's own `> 75 octets (RFC5545)` documentation. -/
theorem C2_fold_counts_units_not_octets :
    foldChunks (List.replicate 76 '€') = [List.replicate 75 '€', [' ', '€']] ∧
    utf8Len (List.replicate 75 '€') = 225 ∧
    foldLine (List.replicate 26 '€') = List.replicate 26 '€' ∧
    utf8Len (List.replicate 26 '€') = 78 := by decide

/-! ### C3 — folding can break inside `mailto:` -/


/-- C3 counterexample: folding this attendee line produces the substring
`mail` + CRLF + space + `to:`, i.e. the fold break lands inside the
literal `mailto:`. -/
theorem C3_counterexample :
    ("mail\r\n to:").data <:+: foldLine (formatAttendee attC3) := by decide

/-- C3 amended: `foldLine` picks its break positions from the length of
the line alone — two lines of equal length are chunked at identical
offsets whatever their content — so no token, `mailto:` and escape pairs
included, is protected from being split. -/
theorem C3_fold_breaks_by_position_only (l₁ l₂ : Str) (h : l₁.length = l₂.length) :
    (foldChunks l₁).map List.length = (foldChunks l₂).map List.length := by
  have aux : ∀ f (l₁ l₂ : Str), l₁.length = l₂.length →
      (foldChunksAux f l₁).map List.length = (foldChunksAux f l₂).map List.length := by
    intro f
    induction f with
    | zero =>
      intro l₁ l₂ h
      cases l₁ <;> cases l₂ <;> simp_all [foldChunksAux]
    | succ n ih =>
      intro l₁ l₂ h
      cases l₁ with
      | nil => cases l₂ <;> simp_all [foldChunksAux]
      | cons c cs =>
        cases l₂ with
        | nil => simp_all
        | cons d ds =>
          have hcd : cs.length = ds.length := by simpa using h
          simp only [foldChunksAux]
          by_cases h75 : 75 < (c :: cs).length
          · have h75' : 75 < (d :: ds).length := by
              simpa [← hcd] using h75
            rw [if_pos h75, if_pos h75']
            have h1 : ((c :: cs).take 75).length = ((d :: ds).take 75).length := by
              simp [List.length_take, hcd]
            simp only [List.map_cons]
            rw [h1, ih (' ' :: (c :: cs).drop 75) (' ' :: (d :: ds).drop 75) (by simp [hcd])]
          · have h75' : ¬ 75 < (d :: ds).length := by
              simpa [← hcd] using h75
            rw [if_neg h75, if_neg h75']
            simp [hcd]
  unfold foldChunks
  rw [h]
  exact aux _ _ _ h

/-- Concrete instantiation of `C3_fold_breaks_by_position_only` on two
equal-length lines with different content. -/
theorem C3_fold_breaks_by_position_only_witness :
    (List.replicate 80 'a').length = (List.replicate 80 'b').length ∧
    (foldChunks (List.replicate 80 'a')).map List.length =
      (foldChunks (List.replicate 80 'b')).map List.length :=
  ⟨by decide, C3_fold_breaks_by_position_only _ _ (by decide)⟩

/-! ### C4 — UIDs do not contain exactly one `@` -/

/-- C4 counterexample: with `FROM_EMAIL` unset the fallback domain is the
full address `DEDE_SYSTEM@dit.daikin.co.jp`, so the generated UID contains
two `@` characters, not one (and hence cannot match the claimed regex). -/
theorem C4_counterexample :
    (generateEventUID none ("1734303600000").data ("k3j4h5g6f7d8e").data).count '@' = 2 ∧
    ¬ (generateEventUID none ("1734303600000").data ("k3j4h5g6f7d8e").data).count '@' = 1 := by
  decide

/-- C4 amended: the UID contains one `@` of its own plus however many `@`
occur in the configured `FROM_EMAIL` (or its default); the default value
itself contains an `@`, which is what breaks the original claim. -/
theorem C4_uid_at_count (fromEmailEnv : Option Str) (ts rand : Str)
    (hts : '@' ∉ ts) (hrand : '@' ∉ rand) :
    (generateEventUID fromEmailEnv ts rand).count '@' =
      1 + (jsOrStr fromEmailEnv ("DEDE_SYSTEM@dit.daikin.co.jp").data).count '@' := by
  unfold generateEventUID
  simp [List.count_append, List.count_cons, List.count_eq_zero.mpr hts,
    List.count_eq_zero.mpr hrand]
  omega

/-- Concrete instantiation of `C4_uid_at_count`: an `@`-free configured
domain yields exactly one `@` in the UID. -/
theorem C4_uid_at_count_witness :
    '@' ∉ ("1734303600000").data ∧ '@' ∉ ("k3j4h5g6f7d8e").data ∧
    (generateEventUID (some ("noreply.example").data)
      ("1734303600000").data ("k3j4h5g6f7d8e").data).count '@' = 1 := by
  refine ⟨by decide, by decide, ?_⟩
  rw [C4_uid_at_count (some ("noreply.example").data) _ _ (by decide) (by decide)]
  decide

/-! ### C5 — the constructor performs no validation -/


/-- C5 counterexample: `createCalendarEvent` contains no validation and
cannot fail; on the invalid parameters it returns a complete event that
retains the empty and `@`-less attendee emails and the inverted times. -/
theorem C5_counterexample :
    createCalendarEvent badParamsC5 ("f-1@d").data =
      { uid := some ("f-1@d").data, summary := some ("Kickoff").data, description := none,
        location := none, start := some ("2024-01-02T00:00:00Z").data,
        «end» := some ("2024-01-01T00:00:00Z").data, timezone := none, organizer := none,
        attendees := some [⟨none, some [], some .REQ, some .NEEDSACTION⟩,
          ⟨none, some ("nobody").data, some .REQ, some .NEEDSACTION⟩],
        sequence := some 0, method := some Method.REQUEST, status := some EvStatus.CONFIRMED } := by
  decide

/-- Emails of an indexed attendee mapping, in order. -/
theorem mapWithIdx_email_map (nm : Option (List Str)) (r : Option ARole) (s : Option APart) :
    ∀ (i : Nat) (l : List Str),
      (mapWithIdx (fun j e => ⟨optIdx nm j, some e, r, s⟩) i l).map Attendee.email = l.map some := by
  intro i l
  induction l generalizing i with
  | nil => rfl
  | cons e es ih => simp [mapWithIdx, ih]

/-- Role and participation status of an indexed attendee mapping. -/
theorem mapWithIdx_fields (nm : Option (List Str)) (r : Option ARole) (s : Option APart) :
    ∀ (i : Nat) (l : List Str) a,
      a ∈ mapWithIdx (fun j e => ⟨optIdx nm j, some e, r, s⟩) i l → a.role = r ∧ a.status = s := by
  intro i l
  induction l generalizing i with
  | nil => intro a ha; cases ha
  | cons e es ih =>
    intro a ha
    rcases List.mem_cons.mp ha with rfl | ha
    · exact ⟨rfl, rfl⟩
    · exact ih _ a ha

/-- C5 amended: `createCalendarEvent` validates nothing and never fails —
for every parameter set (malformed emails, inverted times and missing
organizer email included) it returns an event whose `uid` defaults to the
generated one, `sequence` to 0, `method` to REQUEST and `status` to
CONFIRMED, and whose attendees are exactly the required emails (role
REQ-PARTICIPANT) followed by the optional emails (role OPT-PARTICIPANT)
in order, each with PARTSTAT `NEEDS-ACTION`. -/
theorem C5_no_validation (p : CreateParams) (freshUid : Str) :
    (createCalendarEvent p freshUid).uid = some (jsOrStr p.uid freshUid) ∧
    (createCalendarEvent p freshUid).sequence = some (jsOrNat p.sequence) ∧
    (createCalendarEvent p freshUid).method = some (p.method.getD .REQUEST) ∧
    (createCalendarEvent p freshUid).status = some (p.status.getD .CONFIRMED) ∧
    ((toAttendeesOf p ++ ccAttendeesOf p).length > 0 →
      (createCalendarEvent p freshUid).attendees = some (toAttendeesOf p ++ ccAttendeesOf p)) ∧
    ((toAttendeesOf p ++ ccAttendeesOf p).length = 0 →
      (createCalendarEvent p freshUid).attendees = none) ∧
    (∀ a ∈ toAttendeesOf p, a.role = some ARole.REQ ∧ a.status = some APart.NEEDSACTION) ∧
    (∀ a ∈ ccAttendeesOf p, a.role = some ARole.OPT ∧ a.status = some APart.NEEDSACTION) ∧
    (toAttendeesOf p).map Attendee.email = (p.attendeeEmails.getD []).map some ∧
    (ccAttendeesOf p).map Attendee.email = (p.ccAttendeeEmails.getD []).map some := by
  refine ⟨rfl, rfl, rfl, rfl, ?_, ?_, ?_, ?_, ?_, ?_⟩
  · intro h
    simp only [createCalendarEvent]
    rw [if_pos h]
  · intro h
    simp only [createCalendarEvent]
    rw [if_neg (by omega)]
  · exact fun a ha => mapWithIdx_fields p.attendeeNames _ _ 0 _ a ha
  · exact fun a ha => mapWithIdx_fields p.ccAttendeeNames _ _ 0 _ a ha
  · exact mapWithIdx_email_map p.attendeeNames _ _ 0 _
  · exact mapWithIdx_email_map p.ccAttendeeNames _ _ 0 _

/-- Concrete instantiation of `C5_no_validation` with one required and one
optional attendee, discharging its conditional clauses. -/
theorem C5_no_validation_witness :
    (toAttendeesOf { badParamsC5 with
        ccAttendeeEmails := some [("cc@x").data] } ++
      ccAttendeesOf { badParamsC5 with ccAttendeeEmails := some [("cc@x").data] }).length > 0 ∧
    (createCalendarEvent { badParamsC5 with ccAttendeeEmails := some [("cc@x").data] }
        ("f-1@d").data).attendees =
      some (toAttendeesOf { badParamsC5 with ccAttendeeEmails := some [("cc@x").data] } ++
        ccAttendeesOf { badParamsC5 with ccAttendeeEmails := some [("cc@x").data] }) := by
  refine ⟨by decide, ?_⟩
  exact (C5_no_validation { badParamsC5 with ccAttendeeEmails := some [("cc@x").data] }
    (("f-1@d").data)).2.2.2.2.1 (by decide)

/-! ### C7 — RSVP policy -/


/-- C7 counterexample: the primary `formatAttendee` (calendar.ts:76-105)
marks even an OPT-PARTICIPANT attendee with `RSVP=TRUE`, never
`RSVP=FALSE`. -/
theorem C7_counterexample :
    ¬ ("RSVP=FALSE").data <:+: formatAttendee attC7 ∧
    ("RSVP=TRUE").data <:+: formatAttendee attC7 := by decide

/-- A string is an infix of anything that sandwiches it. -/
theorem infix_mid (s mid t : Str) : mid <:+: s ++ mid ++ t := ⟨s, t, rfl⟩

/-- The parts after the RSVP part always start with a further part, so the
RSVP parameter is `;`-delimited on both sides. -/
theorem statusPart_mailto_cons (a : Attendee) :
    ∃ y ys, statusPart a ++ [mailtoPart a] = y :: ys := by
  cases h : a.status with
  | none => exact ⟨mailtoPart a, [], by simp [statusPart, h]⟩
  | some p => exact ⟨("PARTSTAT=").data ++ aPartStr p, [mailtoPart a], by simp [statusPart, h]⟩

/-- C7 amended: the primary `formatAttendee` emits `RSVP=TRUE` for every
attendee, whatever the role; the second variant (calendar.ts:415-444)
implements the claimed policy, `RSVP=TRUE` for REQ-PARTICIPANT and
`RSVP=FALSE` for OPT-PARTICIPANT. -/
theorem C7_rsvp_policy (a : Attendee) :
    (";RSVP=TRUE;").data <:+: formatAttendee a ∧
    (a.role = some ARole.REQ → (";RSVP=TRUE;").data <:+: formatAttendeeV2 a) ∧
    (a.role = some ARole.OPT → (";RSVP=FALSE;").data <:+: formatAttendeeV2 a) := by
  obtain ⟨y, ys, hys⟩ := statusPart_mailto_cons a
  have hmidT : (";RSVP=TRUE;").data = ';' :: (("RSVP=TRUE").data ++ [';']) := by decide
  have hmidF : (";RSVP=FALSE;").data = ';' :: (("RSVP=FALSE").data ++ [';']) := by decide
  refine ⟨?_, ?_, ?_⟩
  · cases hro : a.role with
    | none =>
      refine ⟨("ATTENDEE;").data ++ cnPart a, joinSemi (y :: ys), ?_⟩
      simp [formatAttendee, rolePart, hro, hys, joinSemi, hmidT, List.append_assoc]
    | some r =>
      refine ⟨("ATTENDEE;").data ++ cnPart a ++ ';' :: (("ROLE=").data ++ aRoleStr r),
        joinSemi (y :: ys), ?_⟩
      simp [formatAttendee, rolePart, hro, hys, joinSemi, hmidT, List.append_assoc]
  · intro hro
    have hne : ¬ a.role = some ARole.OPT := by simp [hro]
    refine ⟨("ATTENDEE;").data ++ cnPart a ++ ';' :: (("ROLE=").data ++ aRoleStr ARole.REQ),
      joinSemi (y :: ys), ?_⟩
    simp [formatAttendeeV2, rolePart, hro, hne, hys, joinSemi, hmidT, List.append_assoc]
  · intro hro
    refine ⟨("ATTENDEE;").data ++ cnPart a ++ ';' :: (("ROLE=").data ++ aRoleStr ARole.OPT),
      joinSemi (y :: ys), ?_⟩
    simp [formatAttendeeV2, rolePart, hro, hys, joinSemi, hmidF, List.append_assoc]

/-- Concrete instantiation of `C7_rsvp_policy` on a REQ-PARTICIPANT and an
OPT-PARTICIPANT attendee. -/
theorem C7_rsvp_policy_witness :
    (";RSVP=TRUE;").data <:+: formatAttendeeV2 attC3 ∧
    (";RSVP=FALSE;").data <:+: formatAttendeeV2 attC7 :=
  ⟨(C7_rsvp_policy attC3).2.1 rfl, (C7_rsvp_policy attC7).2.2 rfl⟩

/-! ### Which logical lines count as ATTENDEE / DTSTAMP lines -/



/-- A rendered line that carries the `DTSTAMP` property. -/
def isDtstampLine (l : Str) : Bool := ("DTSTAMP:").data.isPrefixOf l

/-- A prefix determines the first `k ≤ |p|` characters. -/
theorem prefix_take_eq {p l : Str} (h : p <+: l) {k : Nat} (hk : k ≤ p.length) :
    l.take k = p.take k := by
  obtain ⟨t, rfl⟩ := h
  exact List.take_append_of_le_length hk

/-- The join of a non-empty list starts with its first element. -/
theorem joinCRLF_cons_ex (x : Str) (xs : List Str) : ∃ t, joinCRLF (x :: xs) = x ++ t := by
  cases xs with
  | nil => exact ⟨[], by simp [joinCRLF]⟩
  | cons y ys => exact ⟨'\r' :: '\n' :: joinCRLF (y :: ys), rfl⟩

/-- Folding does not change the first 75 characters of a line. -/
theorem take_foldLine (l : Str) {k : Nat} (hk : k ≤ 75) : (foldLine l).take k = l.take k := by
  unfold foldLine
  split
  · rfl
  · rename_i h75
    cases l with
    | nil => simp at h75
    | cons c cs =>
      have hguard : 75 < (c :: cs).length := by omega
      have hchunks : foldChunks (c :: cs) =
          (c :: cs).take 75 :: foldChunksAux cs.length (' ' :: (c :: cs).drop 75) := by
        show foldChunksAux (c :: cs).length (c :: cs) = _
        rw [show (c :: cs).length = cs.length + 1 from rfl]
        simp only [foldChunksAux]
        rw [if_pos hguard]
      rw [hchunks]
      obtain ⟨t, ht⟩ := joinCRLF_cons_ex ((c :: cs).take 75) _
      have hlen75 : ((c :: cs).take 75).length = 75 := by
        rw [List.length_take]
        omega
      rw [ht, List.take_append_of_le_length (by rw [hlen75]; exact hk), List.take_take]
      congr 1
      omega

/-- A short prefix relation is unaffected by folding. -/
theorem isPrefixOf_foldLine (p l : Str) (hp : p.length ≤ 75) :
    p.isPrefixOf (foldLine l) = p.isPrefixOf l := by
  have hiff : p <+: foldLine l ↔ p <+: l := by
    constructor
    · intro h
      exact List.prefix_iff_eq_take.mpr
        ((List.prefix_iff_eq_take.mp h).trans (take_foldLine l hp))
    · intro h
      exact List.prefix_iff_eq_take.mpr
        ((List.prefix_iff_eq_take.mp h).trans (take_foldLine l hp).symm)
  rcases hb : p.isPrefixOf l with _ | _
  · rw [Bool.eq_false_iff]
    intro hc
    have := List.isPrefixOf_iff_prefix.mpr (hiff.mp (List.isPrefixOf_iff_prefix.mp hc))
    rw [this] at hb
    cases hb
  · exact List.isPrefixOf_iff_prefix.mpr (hiff.mpr (List.isPrefixOf_iff_prefix.mp hb))

/-- Refute a prefix by exhibiting a clash within the first `k` characters
of the literal tag that opens the line. -/
theorem not_isPrefixOf_of_take_ne (p lit rest : Str) (k : Nat) (hkp : k ≤ p.length)
    (hkl : k ≤ lit.length) (hne : p.take k ≠ lit.take k) :
    p.isPrefixOf (lit ++ rest) = false := by
  rcases hb : p.isPrefixOf (lit ++ rest) with _ | _
  · rfl
  · exfalso
    have hpf : p <+: lit ++ rest := List.isPrefixOf_iff_prefix.mp hb
    have h1 : (lit ++ rest).take k = p.take k := prefix_take_eq hpf hkp
    have h2 : (lit ++ rest).take k = lit.take k := List.take_append_of_le_length hkl
    exact hne (h1 ▸ h2)

/-- Establish a prefix of a tagged line from a prefix of its literal tag. -/
theorem isPrefixOf_of_lit (p lit rest : Str) (h : p <+: lit) :
    p.isPrefixOf (lit ++ rest) = true :=
  List.isPrefixOf_iff_prefix.mpr (h.trans (List.prefix_append lit rest))

/-- Folding does not change whether a line is an ATTENDEE line. -/
theorem isAttLine_fold (l : Str) : isAttLine (foldLine l) = isAttLine l :=
  isPrefixOf_foldLine _ l (by decide)

/-- Folding does not change whether a line is the DTSTAMP line. -/
theorem isDtstampLine_fold (l : Str) : isDtstampLine (foldLine l) = isDtstampLine l :=
  isPrefixOf_foldLine _ l (by decide)

/-- The organizer line always opens with the `ORGANIZER;CN=` tag. -/
theorem organizerLine_shape (env : Env) (e : CalendarEvent) :
    ∃ rest, organizerLine env e = ("ORGANIZER;CN=").data ++ rest := by
  unfold organizerLine orgFallback
  rcases e.organizer with _ | o
  · exact ⟨_, rfl⟩
  · dsimp only
    split
    · exact ⟨_, rfl⟩
    · exact ⟨_, rfl⟩

/-- Neither property holds of a line opening with a tag whose first
characters clash with both `ATTENDEE` and `DTSTAMP:`. -/
theorem notAD_of_tag (lit rest : Str) (k₁ k₂ : Nat)
    (h₁ : k₁ ≤ ("ATTENDEE").data.length ∧ k₁ ≤ lit.length ∧
      ("ATTENDEE").data.take k₁ ≠ lit.take k₁)
    (h₂ : k₂ ≤ ("DTSTAMP:").data.length ∧ k₂ ≤ lit.length ∧
      ("DTSTAMP:").data.take k₂ ≠ lit.take k₂) :
    isAttLine (lit ++ rest) = false ∧ isDtstampLine (lit ++ rest) = false :=
  ⟨not_isPrefixOf_of_take_ne _ lit rest k₁ h₁.1 h₁.2.1 h₁.2.2,
   not_isPrefixOf_of_take_ne _ lit rest k₂ h₂.1 h₂.2.1 h₂.2.2⟩

/-- The two date lines are neither ATTENDEE nor DTSTAMP lines. -/
theorem dtLines_notAD (toISO : Str → Str) (e : CalendarEvent) :
    ∀ l ∈ dtLines toISO e, isAttLine l = false ∧ isDtstampLine l = false := by
  intro l hl
  unfold dtLines at hl
  split at hl
  · rcases List.mem_cons.mp hl with rfl | hl
    · exact notAD_of_tag (("DTSTART:").data) _ 1 6
        ⟨by decide, by decide, by decide⟩ ⟨by decide, by decide, by decide⟩
    · rcases List.mem_cons.mp hl with rfl | hl
      · exact notAD_of_tag (("DTEND:").data) _ 1 3
          ⟨by decide, by decide, by decide⟩ ⟨by decide, by decide, by decide⟩
      · cases hl
  · cases hl

/-- The folded summary line is neither an ATTENDEE nor a DTSTAMP line. -/
theorem summary_notAD (e : CalendarEvent) :
    isAttLine (foldLine (summaryLine e)) = false ∧
    isDtstampLine (foldLine (summaryLine e)) = false := by
  rw [isAttLine_fold, isDtstampLine_fold]
  unfold summaryLine
  exact notAD_of_tag (("SUMMARY:").data) _ 1 1
    ⟨by decide, by decide, by decide⟩ ⟨by decide, by decide, by decide⟩

/-- The optional description lines are neither ATTENDEE nor DTSTAMP lines. -/
theorem descLines_notAD (e : CalendarEvent) :
    ∀ l ∈ descLines e, isAttLine l = false ∧ isDtstampLine l = false := by
  intro l hl
  unfold descLines at hl
  split at hl
  · rcases List.mem_cons.mp hl with rfl | hl
    · rw [isAttLine_fold, isDtstampLine_fold]
      exact notAD_of_tag (("DESCRIPTION:").data) _ 1 2
        ⟨by decide, by decide, by decide⟩ ⟨by decide, by decide, by decide⟩
    · cases hl
  · cases hl

/-- The optional location lines are neither ATTENDEE nor DTSTAMP lines. -/
theorem locLines_notAD (e : CalendarEvent) :
    ∀ l ∈ locLines e, isAttLine l = false ∧ isDtstampLine l = false := by
  intro l hl
  unfold locLines at hl
  split at hl
  · rcases List.mem_cons.mp hl with rfl | hl
    · rw [isAttLine_fold, isDtstampLine_fold]
      exact notAD_of_tag (("LOCATION:").data) _ 1 1
        ⟨by decide, by decide, by decide⟩ ⟨by decide, by decide, by decide⟩
    · cases hl
  · cases hl

/-- The folded organizer line is neither an ATTENDEE nor a DTSTAMP line. -/
theorem organizer_notAD (env : Env) (e : CalendarEvent) :
    isAttLine (foldLine (organizerLine env e)) = false ∧
    isDtstampLine (foldLine (organizerLine env e)) = false := by
  obtain ⟨rest, hrest⟩ := organizerLine_shape env e
  rw [isAttLine_fold, isDtstampLine_fold, hrest]
  exact notAD_of_tag (("ORGANIZER;CN=").data) _ 1 1
    ⟨by decide, by decide, by decide⟩ ⟨by decide, by decide, by decide⟩

/-- Both properties of the synthesized fallback attendee line. -/
theorem attFallback_AD (env : Env) :
    isAttLine (foldLine (attFallback env)) = true ∧
    isDtstampLine (foldLine (attFallback env)) = false := by
  rw [isAttLine_fold, isDtstampLine_fold]
  unfold attFallback
  exact ⟨isPrefixOf_of_lit _ (("ATTENDEE;CN=").data) _ (by decide),
    not_isPrefixOf_of_take_ne _ (("ATTENDEE;CN=").data) _ 1 (by decide) (by decide) (by decide)⟩

/-- Both properties of a formatted attendee line. -/
theorem formatAttendee_AD (a : Attendee) :
    isAttLine (foldLine (formatAttendee a)) = true ∧
    isDtstampLine (foldLine (formatAttendee a)) = false := by
  rw [isAttLine_fold, isDtstampLine_fold]
  unfold formatAttendee
  exact ⟨isPrefixOf_of_lit _ (("ATTENDEE;").data) _ (by decide),
    not_isPrefixOf_of_take_ne _ (("ATTENDEE;").data) _ 1 (by decide) (by decide) (by decide)⟩

/-- Every line of the attendee block is an ATTENDEE line and none is the
DTSTAMP line. -/
theorem attLines_AD (env : Env) (e : CalendarEvent) :
    ∀ l ∈ attLines env e, isAttLine l = true ∧ isDtstampLine l = false := by
  intro l hl
  unfold attLines at hl
  rcases ha : e.attendees with _ | l'
  · rw [ha] at hl
    rcases List.mem_cons.mp hl with rfl | hl
    · exact attFallback_AD env
    · cases hl
  · rw [ha] at hl
    dsimp only at hl
    split at hl
    · rcases List.mem_map.mp hl with ⟨a, _, rfl⟩
      exact formatAttendee_AD a
    · rcases List.mem_cons.mp hl with rfl | hl
      · exact attFallback_AD env
      · cases hl

/-- The ATTENDEE-line count of the whole rendering is the count within the
attendee block: no other block produces an ATTENDEE line. -/
theorem countP_att_icalLines (env : Env) (toISO : Str → Str) (nowISO freshUid : Str)
    (e : CalendarEvent) :
    (icalLines env toISO nowISO freshUid e).countP isAttLine =
      (attLines env e).countP isAttLine := by
  unfold icalLines
  have hdt : (dtLines toISO e).countP isAttLine = 0 :=
    List.countP_eq_zero.mpr fun l hl => by simp [(dtLines_notAD toISO e l hl).1]
  have hdesc : (descLines e).countP isAttLine = 0 :=
    List.countP_eq_zero.mpr fun l hl => by simp [(descLines_notAD e l hl).1]
  have hloc : (locLines e).countP isAttLine = 0 :=
    List.countP_eq_zero.mpr fun l hl => by simp [(locLines_notAD e l hl).1]
  simp only [List.countP_append, List.countP_cons, List.countP_nil, hdt, hdesc, hloc]
  have e1 : isAttLine (("BEGIN:VCALENDAR").data) = false := by decide
  have e2 : isAttLine (("VERSION:2.0").data) = false := by decide
  have e3 : isAttLine (("PRODID:-//DEDE_SYSTEM//Email Calendar//EN").data) = false := by decide
  have e4 : isAttLine (("CALSCALE:GREGORIAN").data) = false := by decide
  have e5 : isAttLine (("METHOD:").data ++ methodStr (e.method.getD .REQUEST)) = false :=
    not_isPrefixOf_of_take_ne _ _ _ 1 (by decide) (by decide) (by decide)
  have e6 : isAttLine (("BEGIN:VEVENT").data) = false := by decide
  have e7 : isAttLine (("UID:").data ++ jsOrStr e.uid freshUid) = false :=
    not_isPrefixOf_of_take_ne _ _ _ 1 (by decide) (by decide) (by decide)
  have e8 : isAttLine (("SEQUENCE:").data ++ natDigits (e.sequence.getD 0)) = false :=
    not_isPrefixOf_of_take_ne _ _ _ 1 (by decide) (by decide) (by decide)
  have e9 : isAttLine (("DTSTAMP:").data ++ basicOf nowISO) = false :=
    not_isPrefixOf_of_take_ne _ _ _ 1 (by decide) (by decide) (by decide)
  have e10 : isAttLine (("STATUS:").data ++ evStatusStr (e.status.getD .CONFIRMED)) = false :=
    not_isPrefixOf_of_take_ne _ _ _ 1 (by decide) (by decide) (by decide)
  have e11 : isAttLine (("END:VEVENT").data) = false := by decide
  have e12 : isAttLine (("END:VCALENDAR").data) = false := by decide
  simp only [e1, e2, e3, e4, e5, e6, e7, e8, e9, e10, e11, e12, (summary_notAD e).1,
    (organizer_notAD env e).1, Bool.false_eq_true, if_false]
  omega

/-! ### C10 — attendees without an email are skipped silently -/

/-- C10: one ATTENDEE line is emitted per attendee whose email is truthy;
with a non-empty attendee list whose members all lack an email, the output
has no ATTENDEE line at all — the organizer fallback fires only for an
absent or empty list. -/
theorem C10_attendees_without_email_skipped (env : Env) (toISO : Str → Str)
    (nowISO freshUid : Str) (e : CalendarEvent) (l : List Attendee)
    (hl : e.attendees = some l) (hne : l ≠ []) :
    (icalLines env toISO nowISO freshUid e).countP isAttLine =
      (l.filter fun a => jsTruthy a.email).length ∧
    ((∀ a ∈ l, a.email = none) →
      (icalLines env toISO nowISO freshUid e).countP isAttLine = 0) := by
  have hatt : attLines env e =
      (l.filter fun a => jsTruthy a.email).map fun a => foldLine (formatAttendee a) := by
    unfold attLines
    rw [hl]
    dsimp only
    rw [if_pos (by cases l with | nil => exact absurd rfl hne | cons a as => simp)]
  have hmain : (icalLines env toISO nowISO freshUid e).countP isAttLine =
      (l.filter fun a => jsTruthy a.email).length := by
    rw [countP_att_icalLines, hatt, List.countP_map]
    refine List.countP_eq_length.mpr fun a _ => ?_
    simp [Function.comp, (formatAttendee_AD a).1]
  refine ⟨hmain, fun hnone => ?_⟩
  rw [hmain]
  have : (l.filter fun a => jsTruthy a.email) = [] := by
    refine List.filter_eq_nil_iff.mpr fun a ha => ?_
    rw [hnone a ha]
    simp [jsTruthy]
  rw [this]
  rfl

/-- Concrete instantiation of `C10_attendees_without_email_skipped`: one
email-less attendee in the list, and no ATTENDEE line in the output. -/
theorem C10_attendees_without_email_skipped_witness :
    (icalLines ⟨none, none, none⟩ id ("2024-12-15T10:00:00.000Z").data ("f@d").data
      { uid := some ("u10@x").data, summary := none, description := none, location := none,
        start := none, «end» := none, timezone := none, organizer := none,
        attendees := some [⟨some ("Ghost").data, none, some .REQ, none⟩],
        sequence := some 0, method := some .REQUEST,
        status := some .CONFIRMED }).countP isAttLine = 0 :=
  (C10_attendees_without_email_skipped ⟨none, none, none⟩ id
      (("2024-12-15T10:00:00.000Z").data) (("f@d").data) _ _ rfl (by simp)).2
    (fun a ha => by
      rcases List.mem_singleton.mp ha with rfl
      rfl)

/-! ### C8 — the empty-attendee fallback comes from the environment -/


/-- C8 counterexample: rendering an event with an organizer and no
attendees produces exactly one ATTENDEE line, but it is built from the
environment sender identity (`DEDE_SYSTEM` defaults), not from the event's
organizer: neither the organizer's name nor email occurs in it. -/
theorem C8_counterexample :
    (icalLines envDef id ("2024-12-15T10:00:00.000Z").data ("f@d").data eC8).filter
        isAttLine = [foldLine (attFallback envDef)] ∧
    ¬ ("john.smith@company.com").data <:+: foldLine (attFallback envDef) ∧
    ¬ ("John Smith").data <:+: foldLine (attFallback envDef) ∧
    eC8.organizer = some ⟨some ("John Smith").data, some ("john.smith@company.com").data⟩ := by
  decide

/-- C8 amended: for an event whose attendee list is absent or empty, the
rendering contains exactly one ATTENDEE line, and that line is the folded
fallback synthesized from the configured sender identity
(`SMTP_FROM_NAME`/`SMTP_FROM_EMAIL` or their `DEDE_SYSTEM` defaults) — not
from the event's organizer. -/
theorem C8_empty_attendee_fallback (env : Env) (toISO : Str → Str) (nowISO freshUid : Str)
    (e : CalendarEvent) (h : e.attendees = none ∨ e.attendees = some []) :
    (icalLines env toISO nowISO freshUid e).countP isAttLine = 1 ∧
    foldLine (attFallback env) ∈ icalLines env toISO nowISO freshUid e := by
  have hatt : attLines env e = [foldLine (attFallback env)] := by
    unfold attLines
    rcases h with h | h <;> rw [h]
    rfl
  constructor
  · rw [countP_att_icalLines, hatt]
    simp [List.countP_cons, (attFallback_AD env).1]
  · unfold icalLines
    rw [hatt]
    simp

/-- Concrete instantiation of `C8_empty_attendee_fallback` on `eC8`. -/
theorem C8_empty_attendee_fallback_witness :
    (icalLines envDef id ("2024-12-15T10:00:00.000Z").data ("f@d").data eC8).countP
        isAttLine = 1 ∧
    foldLine (attFallback envDef) ∈
      icalLines envDef id ("2024-12-15T10:00:00.000Z").data ("f@d").data eC8 :=
  C8_empty_attendee_fallback envDef id (("2024-12-15T10:00:00.000Z").data) (("f@d").data)
    eC8 (Or.inl rfl)

/-! ### C9 — rendering is deterministic apart from DTSTAMP -/

/-- A truthy optional string ignores its fallback. -/
theorem jsOrStr_of_truthy {o : Option Str} (h : jsTruthy o = true) (d₁ d₂ : Str) :
    jsOrStr o d₁ = jsOrStr o d₂ := by
  cases o with
  | none => cases h
  | some s =>
    have hs : s.isEmpty = false := by simpa [jsTruthy] using h
    simp [jsOrStr, hs]

/-- Dropping the DTSTAMP line from the rendering leaves a list that does
not depend on the render-time timestamp or the fresh UID draw (when the
event has a truthy uid the fresh draw is unused). -/
theorem filter_dtstamp_icalLines (env : Env) (toISO : Str → Str) (nowISO freshUid : Str)
    (e : CalendarEvent) :
    (icalLines env toISO nowISO freshUid e).filter (fun l => !isDtstampLine l) =
      [("BEGIN:VCALENDAR").data,
       ("VERSION:2.0").data,
       ("PRODID:-//DEDE_SYSTEM//Email Calendar//EN").data,
       ("CALSCALE:GREGORIAN").data,
       ("METHOD:").data ++ methodStr (e.method.getD .REQUEST),
       ("BEGIN:VEVENT").data,
       ("UID:").data ++ jsOrStr e.uid freshUid,
       ("SEQUENCE:").data ++ natDigits (e.sequence.getD 0)] ++
      dtLines toISO e ++
      [foldLine (summaryLine e)] ++
      descLines e ++
      locLines e ++
      [foldLine (organizerLine env e)] ++
      attLines env e ++
      [("STATUS:").data ++ evStatusStr (e.status.getD .CONFIRMED),
       ("END:VEVENT").data,
       ("END:VCALENDAR").data] := by
  unfold icalLines
  have hdt : (dtLines toISO e).filter (fun l => !isDtstampLine l) = dtLines toISO e :=
    List.filter_eq_self.mpr fun l hl => by simp [(dtLines_notAD toISO e l hl).2]
  have hdesc : (descLines e).filter (fun l => !isDtstampLine l) = descLines e :=
    List.filter_eq_self.mpr fun l hl => by simp [(descLines_notAD e l hl).2]
  have hloc : (locLines e).filter (fun l => !isDtstampLine l) = locLines e :=
    List.filter_eq_self.mpr fun l hl => by simp [(locLines_notAD e l hl).2]
  have hatt : (attLines env e).filter (fun l => !isDtstampLine l) = attLines env e :=
    List.filter_eq_self.mpr fun l hl => by simp [(attLines_AD env e l hl).2]
  have d1 : isDtstampLine (("BEGIN:VCALENDAR").data) = false := by decide
  have d2 : isDtstampLine (("VERSION:2.0").data) = false := by decide
  have d3 : isDtstampLine (("PRODID:-//DEDE_SYSTEM//Email Calendar//EN").data) = false := by
    decide
  have d4 : isDtstampLine (("CALSCALE:GREGORIAN").data) = false := by decide
  have d5 : isDtstampLine (("METHOD:").data ++ methodStr (e.method.getD .REQUEST)) = false :=
    not_isPrefixOf_of_take_ne _ _ _ 1 (by decide) (by decide) (by decide)
  have d6 : isDtstampLine (("BEGIN:VEVENT").data) = false := by decide
  have d7 : isDtstampLine (("UID:").data ++ jsOrStr e.uid freshUid) = false :=
    not_isPrefixOf_of_take_ne _ _ _ 1 (by decide) (by decide) (by decide)
  have d8 : isDtstampLine (("SEQUENCE:").data ++ natDigits (e.sequence.getD 0)) = false :=
    not_isPrefixOf_of_take_ne _ _ _ 1 (by decide) (by decide) (by decide)
  have d9 : isDtstampLine (("DTSTAMP:").data ++ basicOf nowISO) = true :=
    isPrefixOf_of_lit _ _ _ (by decide)
  have d10 : isDtstampLine (("STATUS:").data ++ evStatusStr (e.status.getD .CONFIRMED)) =
      false :=
    not_isPrefixOf_of_take_ne _ _ _ 1 (by decide) (by decide) (by decide)
  have d11 : isDtstampLine (("END:VEVENT").data) = false := by decide
  have d12 : isDtstampLine (("END:VCALENDAR").data) = false := by decide
  simp only [List.filter_append, List.filter_cons, List.filter_nil, hdt, hdesc, hloc, hatt,
    d1, d2, d3, d4, d5, d6, d7, d8, d9, d10, d11, d12, (summary_notAD e).2,
    (organizer_notAD env e).2, Bool.not_false, Bool.not_true, if_true, if_false]
  simp

/-- C9: with the uid assigned (truthy), two renderings of the same event —
at different render times and with different fresh-UID draws — agree on
every line except the DTSTAMP line; in particular the UID, SEQUENCE,
DTSTART, DTEND and ORGANIZER lines are identical character for character. -/
theorem C9_render_deterministic_mod_dtstamp (env : Env) (toISO : Str → Str)
    (now₁ fresh₁ now₂ fresh₂ : Str) (e : CalendarEvent) (h : jsTruthy e.uid = true) :
    (icalLines env toISO now₁ fresh₁ e).filter (fun l => !isDtstampLine l) =
      (icalLines env toISO now₂ fresh₂ e).filter (fun l => !isDtstampLine l) := by
  rw [filter_dtstamp_icalLines, filter_dtstamp_icalLines,
    jsOrStr_of_truthy h fresh₁ fresh₂]

/-- Concrete instantiation of `C9_render_deterministic_mod_dtstamp`: same
event, two different timestamps and fresh draws. -/
theorem C9_render_deterministic_mod_dtstamp_witness :
    (icalLines envDef id ("2024-12-15T10:00:00.000Z").data ("f1@d").data eC8).filter
        (fun l => !isDtstampLine l) =
      (icalLines envDef id ("2025-01-01T00:00:00.000Z").data ("f2@d").data eC8).filter
        (fun l => !isDtstampLine l) :=
  C9_render_deterministic_mod_dtstamp envDef id (("2024-12-15T10:00:00.000Z").data)
    (("f1@d").data) (("2025-01-01T00:00:00.000Z").data) (("f2@d").data) eC8 rfl

/-! ### C6 — CRLF discipline of the rendered output -/


/-- C6 counterexample: the `UID` value is interpolated unescaped, so an
event whose `uid` contains a line feed renders with a bare LF. -/
theorem C6_counterexample :
    noBareLF (generateICalContent envDef id ("2024-12-15T10:00:00.000Z").data ("f@d").data
      eC6) = false := by decide

/-- Escaping first turns every LF into the two characters `\n` … -/
theorem no_lf_after_nl_repl (s : Str) :
    (escRepl '\n' ['\\', 'n'] s).all (fun c => c ≠ '\n') = true := by
  induction s with
  | nil => rfl
  | cons c cs ih =>
    simp only [escRepl, List.flatMap_cons, List.all_append]
    refine Bool.and_eq_true_iff.mpr ⟨?_, by simpa [escRepl] using ih⟩
    split
    · decide
    · rename_i h
      simp [h]

/-- Escaping then strips CR, leaving a CRLF-free string. -/
theorem crlf_after_cr_repl (s : Str) (h : s.all (fun c => c ≠ '\n') = true) :
    crlfFree (escRepl '\r' [] s) = true := by
  induction s with
  | nil => rfl
  | cons c cs ih =>
    rw [List.all_cons] at h
    rcases Bool.and_eq_true_iff.mp h with ⟨hc, hcs⟩
    show (escRepl '\r' [] (c :: cs)).all _ = true
    simp only [escRepl, List.flatMap_cons, List.all_append]
    refine Bool.and_eq_true_iff.mpr ⟨?_, by simpa [escRepl, crlfFree] using ih hcs⟩
    split <;> rename_i hr
    · rfl
    · simp_all [crlfFree]

/-- The escaper always produces a CRLF-free string, whatever the input. -/
theorem crlfFree_escape (s : Str) : crlfFree (escapeICalText s) = true :=
  crlf_after_cr_repl _ (no_lf_after_nl_repl _)

/-- CRLF-freeness passes to sublists. -/
theorem crlfFree_sublist {t s : Str} (h : List.Sublist t s) (hs : crlfFree s = true) :
    crlfFree t = true := by
  unfold crlfFree at hs ⊢
  rw [List.all_eq_true] at hs ⊢
  exact fun c hc => hs c (h.subset hc)

/-- CRLF-freeness over concatenation. -/
theorem crlfFree_append {a b : Str} (ha : crlfFree a = true) (hb : crlfFree b = true) :
    crlfFree (a ++ b) = true := by
  show (a ++ b).all _ = true
  rw [List.all_append]
  exact Bool.and_eq_true_iff.mpr ⟨ha, hb⟩

/-- The basic-format pipeline keeps a CRLF-free timestamp CRLF-free. -/
theorem crlfFree_basicOf {s : Str} (h : crlfFree s = true) :
    crlfFree (basicOf s) = true := by
  unfold basicOf
  refine crlfFree_append (crlfFree_sublist ?_ h) (by decide)
  exact (List.takeWhile_sublist _).trans (List.filter_sublist s)

/-- Digit characters are never CR or LF. -/
theorem digitChar_ok (m : Nat) : digitChar m ≠ '\n' ∧ digitChar m ≠ '\r' := by
  unfold digitChar
  repeat' split
  all_goals decide

/-- Decimal renderings are CRLF-free. -/
theorem crlfFree_natDigits (n : Nat) : crlfFree (natDigits n) = true := by
  have aux : ∀ fuel m, crlfFree (natDigitsAux fuel m) = true := by
    intro fuel
    induction fuel with
    | zero => intro m; rfl
    | succ f ih =>
      intro m
      show (natDigitsAux (f + 1) m).all _ = true
      simp only [natDigitsAux]
      split
      · simp [crlfFree, (digitChar_ok m).1, (digitChar_ok m).2]
      · rw [List.all_append]
        refine Bool.and_eq_true_iff.mpr ⟨ih (m / 10), ?_⟩
        simp [(digitChar_ok (m % 10)).1, (digitChar_ok (m % 10)).2]
  exact aux _ _

/-- A CRLF-free string has no bare LF and no LF needing a previous CR. -/
theorem noBareLFAux_of_crlfFree {l : Str} (h : crlfFree l = true) (p : Char) :
    noBareLFAux p l = true := by
  induction l generalizing p with
  | nil => rfl
  | cons c cs ih =>
    rw [crlfFree, List.all_cons] at h
    rcases Bool.and_eq_true_iff.mp h with ⟨hc, hcs⟩
    rcases Bool.and_eq_true_iff.mp hc with ⟨hn, _⟩
    show ((c ≠ '\n' || p = '\r') && noBareLFAux c cs) = true
    rw [Bool.and_eq_true_iff]
    exact ⟨by simp [decide_eq_true_eq.mp hn], ih hcs c⟩

/-- A CRLF-free string satisfies the bare-LF invariant. -/
theorem noBareLF_of_crlfFree {l : Str} (h : crlfFree l = true) : noBareLF l = true := by
  cases l with
  | nil => rfl
  | cons c cs =>
    rw [crlfFree, List.all_cons] at h
    rcases Bool.and_eq_true_iff.mp h with ⟨hc, hcs⟩
    rcases Bool.and_eq_true_iff.mp hc with ⟨hn, _⟩
    show ((c ≠ '\n') && noBareLFAux c cs) = true
    rw [Bool.and_eq_true_iff]
    exact ⟨hn, noBareLFAux_of_crlfFree hcs c⟩

/-- The invariant ignores what came before a string that does not open
with a line feed. -/
theorem noBareLFAux_of_noBareLF {l : Str} (h : noBareLF l = true) (p : Char) :
    noBareLFAux p l = true := by
  cases l with
  | nil => rfl
  | cons c cs =>
    rw [noBareLF, Bool.and_eq_true_iff] at h
    show ((c ≠ '\n' || p = '\r') && noBareLFAux c cs) = true
    rw [Bool.and_eq_true_iff]
    exact ⟨by simp [decide_eq_true_eq.mp h.1], h.2⟩

/-- The invariant composes over concatenation when the tail holds it from
any starting character. -/
theorem noBareLFAux_append {a b : Str} {p : Char} (ha : noBareLFAux p a = true)
    (hb : ∀ q, noBareLFAux q b = true) : noBareLFAux p (a ++ b) = true := by
  induction a generalizing p with
  | nil => exact hb p
  | cons c cs ih =>
    rw [noBareLFAux, Bool.and_eq_true_iff] at ha
    show ((c ≠ '\n' || p = '\r') && noBareLFAux c (cs ++ b)) = true
    rw [Bool.and_eq_true_iff]
    exact ⟨ha.1, ih ha.2⟩

/-- Joining two invariant-satisfying strings with CRLF preserves the
invariant. -/
theorem noBareLF_append_crlf {a b : Str} (ha : noBareLF a = true) (hb : noBareLF b = true) :
    noBareLF (a ++ '\r' :: '\n' :: b) = true := by
  have hsep : ∀ q, noBareLFAux q ('\r' :: '\n' :: b) = true := by
    intro q
    show (('\r' ≠ '\n' || q = '\r') && (('\n' ≠ '\n' || '\r' = '\r') && noBareLFAux '\n' b)) =
      true
    simp [noBareLFAux_of_noBareLF hb '\n']
  cases a with
  | nil =>
    have hx : noBareLFAux '\r' ('\n' :: b) = true := by
      show (('\n' ≠ '\n' || '\r' = '\r') && noBareLFAux '\n' b) = true
      simp [noBareLFAux_of_noBareLF hb '\n']
    show (('\r' ≠ '\n') && noBareLFAux '\r' ('\n' :: b)) = true
    simp [hx]
  | cons c cs =>
    rw [noBareLF, Bool.and_eq_true_iff] at ha
    show ((c ≠ '\n') && noBareLFAux c (cs ++ '\r' :: '\n' :: b)) = true
    rw [Bool.and_eq_true_iff]
    exact ⟨ha.1, noBareLFAux_append ha.2 hsep⟩

/-- If every pushed line satisfies the invariant so does the CRLF join. -/
theorem noBareLF_joinCRLF {L : List Str} (h : ∀ l ∈ L, noBareLF l = true) :
    noBareLF (joinCRLF L) = true := by
  induction L with
  | nil => rfl
  | cons x xs ih =>
    cases xs with
    | nil => exact h x (List.mem_singleton.mpr rfl)
    | cons y ys =>
      show noBareLF (x ++ '\r' :: '\n' :: joinCRLF (y :: ys)) = true
      exact noBareLF_append_crlf (h x (by simp))
        (ih fun l hl => h l (List.mem_cons_of_mem x hl))

/-- Chunking a CRLF-free line yields CRLF-free physical lines. -/
theorem foldChunksAux_crlfFree : ∀ (fuel : Nat) {rem : Str}, crlfFree rem = true →
    ∀ c ∈ foldChunksAux fuel rem, crlfFree c = true := by
  intro fuel
  induction fuel with
  | zero =>
    intro rem hrem c hc
    cases rem with
    | nil => cases hc
    | cons x xs =>
      rcases List.mem_singleton.mp hc with rfl
      exact hrem
  | succ f ih =>
    intro rem hrem c hc
    cases rem with
    | nil => cases hc
    | cons x xs =>
      rw [show foldChunksAux (f + 1) (x :: xs) =
          if 75 < (x :: xs).length then
            (x :: xs).take 75 :: foldChunksAux f (' ' :: (x :: xs).drop 75)
          else [x :: xs] from rfl] at hc
      split at hc
      · rcases List.mem_cons.mp hc with rfl | hc
        · exact crlfFree_sublist (List.take_sublist 75 _) hrem
        · refine ih ?_ c hc
          have hd : crlfFree ((x :: xs).drop 75) = true :=
            crlfFree_sublist (List.drop_sublist 75 (x :: xs)) hrem
          unfold crlfFree at hd ⊢
          rw [List.all_cons, hd]
          decide
      · rcases List.mem_singleton.mp hc with rfl
        exact hrem

/-- Folding a CRLF-free logical line produces output satisfying the
bare-LF invariant. -/
theorem noBareLF_foldLine {l : Str} (h : crlfFree l = true) :
    noBareLF (foldLine l) = true := by
  unfold foldLine
  split
  · exact noBareLF_of_crlfFree h
  · exact noBareLF_joinCRLF fun c hc =>
      noBareLF_of_crlfFree (foldChunksAux_crlfFree _ h c hc)

/-- Method renderings are CRLF-free. -/
theorem crlfFree_methodStr (m : Method) : crlfFree (methodStr m) = true := by
  cases m <;> decide

/-- Status renderings are CRLF-free. -/
theorem crlfFree_evStatusStr (st : EvStatus) : crlfFree (evStatusStr st) = true := by
  cases st <;> decide

/-- Role renderings are CRLF-free. -/
theorem crlfFree_aRoleStr (r : ARole) : crlfFree (aRoleStr r) = true := by
  cases r <;> decide

/-- Participation-status renderings are CRLF-free. -/
theorem crlfFree_aPartStr (p : APart) : crlfFree (aPartStr p) = true := by
  cases p <;> decide

/-- Adding a leading character other than CR/LF preserves CRLF-freeness. -/
theorem crlfFree_cons {c : Char} {l : Str} (hc : (c ≠ '\n' && c ≠ '\r') = true)
    (h : crlfFree l = true) : crlfFree (c :: l) = true := by
  unfold crlfFree at h ⊢
  rw [List.all_cons, h, hc]
  rfl

/-- Joining CRLF-free parts with `;` stays CRLF-free. -/
theorem crlfFree_joinSemi : ∀ (L : List Str), (∀ x ∈ L, crlfFree x = true) →
    crlfFree (joinSemi L) = true := by
  intro L
  induction L with
  | nil => intro h; rfl
  | cons x xs ih =>
    intro h
    cases xs with
    | nil => exact h x (by simp)
    | cons y ys =>
      show crlfFree (x ++ ';' :: joinSemi (y :: ys)) = true
      refine crlfFree_append (h x (by simp)) ?_
      exact crlfFree_cons (by decide) (ih fun z hz => h z (List.mem_cons_of_mem x hz))

/-- A formatted attendee line is CRLF-free when the attendee email is. -/
theorem crlfFree_formatAttendee (a : Attendee) (he : crlfFree (strVal a.email) = true) :
    crlfFree (formatAttendee a) = true := by
  unfold formatAttendee
  refine crlfFree_append (by decide) (crlfFree_joinSemi _ ?_)
  intro x hx
  simp only [List.mem_append, List.mem_cons, List.mem_singleton, List.not_mem_nil,
    or_false] at hx
  rcases hx with (((hx | hx) | hx) | hx) | hx
  · subst hx
    unfold cnPart
    split <;> exact crlfFree_append (by decide) (crlfFree_escape _)
  · unfold rolePart at hx
    rcases hr : a.role with _ | r <;> rw [hr] at hx
    · cases hx
    · rcases List.mem_singleton.mp hx with rfl
      exact crlfFree_append (by decide) (crlfFree_aRoleStr r)
  · subst hx
    decide
  · unfold statusPart at hx
    rcases hs : a.status with _ | p <;> rw [hs] at hx
    · cases hx
    · rcases List.mem_singleton.mp hx with rfl
      exact crlfFree_append (by decide) (crlfFree_aPartStr p)
  · subst hx
    unfold mailtoPart
    exact crlfFree_append (by decide) he

/-- The environment organizer fallback line is CRLF-free when the
configured sender email is. -/
theorem crlfFree_orgFallback (env : Env)
    (henvE : crlfFree (jsOrStr env.smtpFromEmail ("DEDE_SYSTEM@dit.daikin.co.jp").data) =
      true) : crlfFree (orgFallback env) = true := by
  unfold orgFallback
  exact crlfFree_append (by decide)
    (crlfFree_append (crlfFree_escape _) (crlfFree_append (by decide) henvE))

/-- The organizer line is CRLF-free under the same conditions. -/
theorem crlfFree_organizerLine (env : Env) (e : CalendarEvent)
    (horg : ∀ o, e.organizer = some o → crlfFree (strVal o.email) = true)
    (henvE : crlfFree (jsOrStr env.smtpFromEmail ("DEDE_SYSTEM@dit.daikin.co.jp").data) =
      true) : crlfFree (organizerLine env e) = true := by
  unfold organizerLine
  rcases ho : e.organizer with _ | o
  · exact crlfFree_orgFallback env henvE
  · dsimp only
    split
    · exact crlfFree_append (by decide)
        (crlfFree_append (crlfFree_escape _) (crlfFree_append (by decide) (horg o ho)))
    · exact crlfFree_orgFallback env henvE

/-- The synthesized fallback attendee line is CRLF-free under the same
condition on the configured sender email. -/
theorem crlfFree_attFallback (env : Env)
    (henvE : crlfFree (jsOrStr env.smtpFromEmail ("DEDE_SYSTEM@dit.daikin.co.jp").data) =
      true) : crlfFree (attFallback env) = true := by
  unfold attFallback
  exact crlfFree_append (by decide)
    (crlfFree_append (crlfFree_escape _) (crlfFree_append (by decide) henvE))

/-- Every logical line the serializer pushes satisfies the bare-LF
invariant, provided the raw (unescaped) interpolated inputs — the uid in
force, the timestamps after the `Date` round-trip, the organizer and
attendee emails, and the configured sender email — are CRLF-free. -/
theorem icalLines_noBareLF (env : Env) (toISO : Str → Str) (nowISO freshUid : Str)
    (e : CalendarEvent)
    (hnow : crlfFree nowISO = true)
    (htoISO : ∀ s, crlfFree (toISO s) = true)
    (huid : crlfFree (jsOrStr e.uid freshUid) = true)
    (horg : ∀ o, e.organizer = some o → crlfFree (strVal o.email) = true)
    (hatt : ∀ l, e.attendees = some l → ∀ a ∈ l, crlfFree (strVal a.email) = true)
    (henvE : crlfFree (jsOrStr env.smtpFromEmail ("DEDE_SYSTEM@dit.daikin.co.jp").data) =
      true) :
    ∀ l ∈ icalLines env toISO nowISO freshUid e, noBareLF l = true := by
  intro l hl
  unfold icalLines at hl
  rcases List.mem_append.mp hl with hl | hl
  rotate_left
  · -- STATUS / END:VEVENT / END:VCALENDAR
    rcases List.mem_cons.mp hl with rfl | hl
    · exact noBareLF_of_crlfFree (crlfFree_append (by decide) (crlfFree_evStatusStr _))
    · rcases List.mem_cons.mp hl with rfl | hl
      · decide
      · rcases List.mem_singleton.mp hl with rfl
        decide
  rcases List.mem_append.mp hl with hl | hl
  rotate_left
  · -- attendee block
    unfold attLines at hl
    have hfb : noBareLF (foldLine (attFallback env)) = true :=
      noBareLF_foldLine (crlfFree_attFallback env henvE)
    rcases ha : e.attendees with _ | l'
    · rw [ha] at hl
      rcases List.mem_singleton.mp hl with rfl
      exact hfb
    · rw [ha] at hl
      dsimp only at hl
      split at hl
      · rcases List.mem_map.mp hl with ⟨a, haf, rfl⟩
        refine noBareLF_foldLine (crlfFree_formatAttendee a ?_)
        exact hatt l' ha a (List.mem_of_mem_filter haf)
      · rcases List.mem_singleton.mp hl with rfl
        exact hfb
  rcases List.mem_append.mp hl with hl | hl
  rotate_left
  · -- organizer line
    rcases List.mem_singleton.mp hl with rfl
    exact noBareLF_foldLine (crlfFree_organizerLine env e horg henvE)
  rcases List.mem_append.mp hl with hl | hl
  rotate_left
  · -- location block
    unfold locLines at hl
    split at hl
    · rcases List.mem_singleton.mp hl with rfl
      exact noBareLF_foldLine (crlfFree_append (by decide) (crlfFree_escape _))
    · cases hl
  rcases List.mem_append.mp hl with hl | hl
  rotate_left
  · -- description block
    unfold descLines at hl
    split at hl
    · rcases List.mem_singleton.mp hl with rfl
      exact noBareLF_foldLine (crlfFree_append (by decide) (crlfFree_escape _))
    · cases hl
  rcases List.mem_append.mp hl with hl | hl
  rotate_left
  · -- summary line
    rcases List.mem_singleton.mp hl with rfl
    exact noBareLF_foldLine
      (by unfold summaryLine; exact crlfFree_append (by decide) (crlfFree_escape _))
  rcases List.mem_append.mp hl with hl | hl
  rotate_left
  · -- date block
    unfold dtLines at hl
    split at hl
    · rcases List.mem_cons.mp hl with rfl | hl
      · exact noBareLF_of_crlfFree (crlfFree_append (by decide) (crlfFree_basicOf (htoISO _)))
      · rcases List.mem_singleton.mp hl with rfl
        exact noBareLF_of_crlfFree (crlfFree_append (by decide) (crlfFree_basicOf (htoISO _)))
    · cases hl
  · -- the nine header lines
    rcases List.mem_cons.mp hl with rfl | hl
    · decide
    rcases List.mem_cons.mp hl with rfl | hl
    · decide
    rcases List.mem_cons.mp hl with rfl | hl
    · decide
    rcases List.mem_cons.mp hl with rfl | hl
    · decide
    rcases List.mem_cons.mp hl with rfl | hl
    · exact noBareLF_of_crlfFree (crlfFree_append (by decide) (crlfFree_methodStr _))
    rcases List.mem_cons.mp hl with rfl | hl
    · decide
    rcases List.mem_cons.mp hl with rfl | hl
    · exact noBareLF_of_crlfFree (crlfFree_append (by decide) huid)
    rcases List.mem_cons.mp hl with rfl | hl
    · exact noBareLF_of_crlfFree (crlfFree_append (by decide) (crlfFree_natDigits _))
    rcases List.mem_singleton.mp hl with rfl
    exact noBareLF_of_crlfFree (crlfFree_append (by decide) (crlfFree_basicOf hnow))

/-- The CRLF join of a list ending in `x` ends in `x`. -/
theorem joinCRLF_snoc : ∀ (L : List Str) (x : Str), ∃ t, joinCRLF (L ++ [x]) = t ++ x := by
  intro L
  induction L with
  | nil => exact fun x => ⟨[], by simp [joinCRLF]⟩
  | cons a as ih =>
    intro x
    obtain ⟨t, ht⟩ := ih x
    cases hsh : as ++ [x] with
    | nil => exact absurd hsh (by simp)
    | cons y ys =>
      refine ⟨a ++ '\r' :: '\n' :: t, ?_⟩
      show joinCRLF (a :: (as ++ [x])) = _
      rw [hsh]
      show a ++ '\r' :: '\n' :: joinCRLF (y :: ys) = _
      rw [← hsh, ht]
      simp

/-- The serializer's line list, with its final `END:VCALENDAR` split off. -/
theorem icalLines_snoc (env : Env) (toISO : Str → Str) (nowISO freshUid : Str)
    (e : CalendarEvent) :
    ∃ L, icalLines env toISO nowISO freshUid e = L ++ [("END:VCALENDAR").data] := by
  refine ⟨[("BEGIN:VCALENDAR").data,
    ("VERSION:2.0").data,
    ("PRODID:-//DEDE_SYSTEM//Email Calendar//EN").data,
    ("CALSCALE:GREGORIAN").data,
    ("METHOD:").data ++ methodStr (e.method.getD .REQUEST),
    ("BEGIN:VEVENT").data,
    ("UID:").data ++ jsOrStr e.uid freshUid,
    ("SEQUENCE:").data ++ natDigits (e.sequence.getD 0),
    ("DTSTAMP:").data ++ basicOf nowISO] ++
    dtLines toISO e ++
    [foldLine (summaryLine e)] ++
    descLines e ++
    locLines e ++
    [foldLine (organizerLine env e)] ++
    attLines env e ++
    [("STATUS:").data ++ evStatusStr (e.status.getD .CONFIRMED),
     ("END:VEVENT").data], ?_⟩
  unfold icalLines
  simp

/-- C6 amended: if the raw interpolated inputs (uid, `Date` round-trip
output, render timestamp, organizer and attendee emails, configured sender
email) are CRLF-free, the rendered text contains no line feed that is not
immediately preceded by a carriage return, ends with the `END:VCALENDAR`
line, and has no trailing blank line (its final character is `R`, not a
newline).  The original unconditional claim fails because `UID` and the
other raw fields are interpolated unescaped. -/
theorem C6_crlf_invariant (env : Env) (toISO : Str → Str) (nowISO freshUid : Str)
    (e : CalendarEvent)
    (hnow : crlfFree nowISO = true)
    (htoISO : ∀ s, crlfFree (toISO s) = true)
    (huid : crlfFree (jsOrStr e.uid freshUid) = true)
    (horg : ∀ o, e.organizer = some o → crlfFree (strVal o.email) = true)
    (hatt : ∀ l, e.attendees = some l → ∀ a ∈ l, crlfFree (strVal a.email) = true)
    (henvE : crlfFree (jsOrStr env.smtpFromEmail ("DEDE_SYSTEM@dit.daikin.co.jp").data) =
      true) :
    noBareLF (generateICalContent env toISO nowISO freshUid e) = true ∧
    ("END:VCALENDAR").data <:+ generateICalContent env toISO nowISO freshUid e ∧
    (generateICalContent env toISO nowISO freshUid e).getLast? = some ('R') := by
  obtain ⟨L, hL⟩ := icalLines_snoc env toISO nowISO freshUid e
  obtain ⟨t, ht⟩ : ∃ t, generateICalContent env toISO nowISO freshUid e =
      t ++ ("END:VCALENDAR").data := by
    obtain ⟨t, ht⟩ := joinCRLF_snoc L (("END:VCALENDAR").data)
    exact ⟨t, by rw [generateICalContent, hL, ht]⟩
  refine ⟨?_, ⟨t, ht.symm⟩, ?_⟩
  · exact noBareLF_joinCRLF
      (icalLines_noBareLF env toISO nowISO freshUid e hnow htoISO huid horg hatt henvE)
  · rw [ht, List.getLast?_append,
      show ("END:VCALENDAR").data.getLast? = some ('R') by decide]
    rfl

/-- Concrete instantiation of `C6_crlf_invariant` on a full event with a
constant `Date` round-trip. -/
theorem C6_crlf_invariant_witness :
    noBareLF (generateICalContent envDef (fun _ => ("2024-12-15T14:00:00.000Z").data)
      ("2024-12-15T10:00:00.000Z").data ("f@d").data eC8) = true ∧
    ("END:VCALENDAR").data <:+ generateICalContent envDef
      (fun _ => ("2024-12-15T14:00:00.000Z").data)
      ("2024-12-15T10:00:00.000Z").data ("f@d").data eC8 ∧
    (generateICalContent envDef (fun _ => ("2024-12-15T14:00:00.000Z").data)
      ("2024-12-15T10:00:00.000Z").data ("f@d").data eC8).getLast? = some ('R') :=
  C6_crlf_invariant envDef (fun _ => ("2024-12-15T14:00:00.000Z").data)
    (("2024-12-15T10:00:00.000Z").data) (("f@d").data) eC8
    (by decide)
    (fun s => by
      show crlfFree (("2024-12-15T14:00:00.000Z").data) = true
      decide)
    (by decide)
    (fun o ho => by cases ho; decide)
    (fun l h => by cases h)
    (by decide)

section Sanity

example : natDigits 0 = ('0') :: [] := by decide
example : natDigits 207 = ['2', '0', '7'] := by decide
example : escapeICalText ("a;b,c\\d\ne").data = ("a\\;b\\,c\\\\d\\ne").data := by decide
example : crlfFree (escapeICalText ("x\r\ny").data) = true := by decide
example : noBareLF ("a\r\nb").data = true := by decide
example : noBareLF ("a\nb").data = false := by decide
example : basicOf ("2024-12-15T14:00:00.000Z").data = ("20241215T140000Z").data := by decide
example : generateEventUID none ("173").data ("ab").data = ("173-ab@DEDE_SYSTEM@dit.daikin.co.jp").data := by decide

example : formatAttendee ⟨some ("Alice").data, some ("a@b.c").data, some .REQ, some .NEEDSACTION⟩ =
    ("ATTENDEE;CN=Alice;ROLE=REQ-PARTICIPANT;RSVP=TRUE;PARTSTAT=NEEDS-ACTION;mailto:a@b.c").data := by decide

example : (formatAttendee ⟨some ("Alice").data, some ("a@b.c").data, some .REQ, some .NEEDSACTION⟩).length = 83 := by decide

example : foldChunks (List.replicate 76 '€') = [List.replicate 75 '€', [' ', '€']] := by decide

example : deriveName ("jane.doe_x@company.com").data = ("Jane Doe X").data := by decide

end Sanity
